import Mathlib

/-!
Shallow embedding of `src/audible/register.py` (device registration /
deregistration against the Amazon/Audible API) and proofs about it.

Modelling conventions:
* JSON values are the inductive `Json` below; Python dicts are ordered
  association lists, as in CPython (insertion order preserved, assignment to
  an existing key overwrites in place).
* The HTTP transport (`httpx.post`) is a collaborator: each network-using
  function is split into a request view (the `HttpRequest` it sends) and a
  response-processing function taking the server's `HttpResponse` as input.
* Python exceptions become `Except PyError`; `raise Exception(resp_json)`
  is `PyError.exc resp_json`, a missing dict key is `PyError.keyError`,
  subscripting a non-dict is `PyError.typeError`, `int()` on a bad string is
  `PyError.valueError`, `.replace` on a non-string is `PyError.attributeError`.
* `datetime.utcnow()` at response-processing time is the parameter `now`
  (epoch seconds, an integer); `.timestamp()` of `now + timedelta(seconds=s)`
  is modelled as the integer `now + s`.
-/

/-- JSON values, as decoded by `resp.json()`. Numbers are modelled as
integers (the fields the code reads numerically are integral). -/
inductive Json where
  | null
  | bool (b : Bool)
  | num (n : Int)
  | str (s : String)
  | arr (elems : List Json)
  | obj (fields : List (String × Json))

/-- The Python exceptions the embedded code can raise. -/
inductive PyError where
  | exc (payload : Json)
  | keyError (key : String)
  | typeError
  | valueError
  | attributeError

/-- An exception that signals a malformed response during decoding, as
opposed to the deliberately raised `Exception(resp_json)`. -/
def PyError.isDecode : PyError → Bool
  | .exc _ => false
  | _ => true

/-- Python `d[k]` on a JSON value: `KeyError` when the key is missing from a
dict, `TypeError` when the value is not a dict at all. -/
def Json.getKey : Json → String → Except PyError Json
  | .obj fields, k =>
    match fields.lookup k with
    | some v => .ok v
    | none => .error (.keyError k)
  | _, _ => .error .typeError

/-- Python `==` on hashable JSON scalars, as used for dict keys.  Lists and
dicts are unhashable, so they never occur as keys (see `pySetKey`); `True`
and `1` compare equal, as in Python. -/
def Json.eqKey : Json → Json → Bool
  | .null, .null => true
  | .bool a, .bool b => a == b
  | .num a, .num b => a == b
  | .str a, .str b => a == b
  | .bool a, .num n => (if a then (1 : Int) else 0) == n
  | .num n, .bool b => n == (if b then (1 : Int) else 0)
  | _, _ => false

/-- A Python dict with JSON keys: an insertion-ordered association list. -/
def PyDict := List (Json × Json)

/-- Python `d[k] = v` on a dict with JSON keys: overwrite in place if an
equal key exists, otherwise append. -/
def pySetKey (m : List (Json × Json)) (k v : Json) : List (Json × Json) :=
  match m with
  | [] => [(k, v)]
  | (k0, v0) :: rest =>
    if k0.eqKey k then (k0, v) :: rest else (k0, v0) :: pySetKey rest k v

/-- Lookup in a dict with JSON keys (Python `d[k]`, as an `Option`). -/
def pyGetKey (m : List (Json × Json)) (k : Json) : Option Json :=
  match m with
  | [] => none
  | (k0, v0) :: rest => if k0.eqKey k then some v0 else pyGetKey rest k

/-- Python `d[k] = v` on a dict with string keys: overwrite in place if the
key exists, otherwise append. -/
def pySetStr (fields : List (String × Json)) (k : String) (v : Json) :
    List (String × Json) :=
  match fields with
  | [] => [(k, v)]
  | (k0, v0) :: rest =>
    if k0 == k then (k0, v) :: rest else (k0, v0) :: pySetStr rest k v

/-- Python `body[k] = v` where `body` is a JSON dict (the only use sites
subscript-assign into dicts; on a non-dict CPython would raise). -/
def Json.setKey (j : Json) (k : String) (v : Json) : Json :=
  match j with
  | .obj fields => .obj (pySetStr fields k v)
  | other => other

/-- `s.replace('"', '')` at character level: since the pattern is the single
character `"`, the replacement deletes every literal double-quote. -/
def stripQuoteChars : List Char → List Char
  | [] => []
  | c :: cs => if c = Char.ofNat 34 then stripQuoteChars cs
               else c :: stripQuoteChars cs

/-- `value.replace(r'"', r'')` — remove every literal `"` from the string. -/
def pyStripQuotes (s : String) : String := ⟨stripQuoteChars s.data⟩

/-- Accumulate a decimal value over the remaining characters; `none` as soon
as a non-digit appears. -/
def digitsVal (ds : List Char) (acc : Nat) : Option Nat :=
  match ds with
  | [] => some acc
  | d :: ds => if d.isDigit then digitsVal ds (acc * 10 + (d.toNat - 48))
               else none

/-- Python `int(s)` on a string: surrounding whitespace is ignored, an
optional sign precedes at least one decimal digit (digit-group underscores
are not modelled; no claim depends on them). -/
def pyIntOfChars (cs : List Char) : Option Int :=
  let cs := ((cs.dropWhile Char.isWhitespace).reverse.dropWhile
    Char.isWhitespace).reverse
  match cs with
  | [] => none
  | c :: ds =>
    if c = '-' then
      if ds.isEmpty then none else (digitsVal ds 0).map (fun n => -(n : Int))
    else if c = '+' then
      if ds.isEmpty then none else (digitsVal ds 0).map (fun n => (n : Int))
    else (digitsVal (c :: ds) 0).map (fun n => (n : Int))

/-- Python `int(x)` on a JSON value: identity on ints, `True`/`False` map to
`1`/`0`, strings are parsed (ValueError on failure), anything else is a
TypeError. -/
def pyInt : Json → Except PyError Int
  | .num n => .ok n
  | .bool b => .ok (if b then 1 else 0)
  | .str s =>
    match pyIntOfChars s.data with
    | some n => .ok n
    | none => .error .valueError
  | _ => .error .typeError

/-- An HTTP response as the `httpx` collaborator delivers it: the status
code and the already-decoded JSON body (`resp.json()`). -/
structure HttpResponse where
  status : Nat
  body : Json

/-- An HTTP request as handed to `httpx.post(url, json=body, headers=...)`. -/
structure HttpRequest where
  url : String
  body : Json
  headers : List (String × String)

/-- `_build_registration_body(domain, serial)` — builds the registration
body except the `auth_data`. -/
def _build_registration_body (domain : String) (serial : String) : Json :=
  .obj [
    ("requested_token_type",
      .arr [.str "bearer", .str "mac_dms", .str "website_cookies",
            .str "store_authentication_cookie"]),
    ("cookies", .obj [
      ("website_cookies", .arr []),
      ("domain", .str (".amazon." ++ domain))]),
    ("registration_data", .obj [
      ("domain", .str "Device"),
      ("app_version", .str "3.26.1"),
      ("device_serial", .str serial),
      ("device_type", .str "A2CZJZGLK2JJVM"),
      ("device_name", .str ("%FIRST_NAME%%FIRST_NAME_POSSESSIVE_STRING%%DUPE_" ++
        "STRATEGY_1ST%Audible for iPhone")),
      ("os_version", .str "13.5.1"),
      ("device_model", .str "iPhone"),
      ("app_name", .str "Audible")]),
    ("requested_extensions", .arr [.str "device_info", .str "customer_info"])
  ]

/-- One iteration of the `for cookie in tokens["website_cookies"]` loop:
`website_cookies[cookie["Name"]] = cookie["Value"].replace(r'"', r'')`.
CPython evaluates the right-hand side first, so a missing `"Value"` key or a
non-string value raises before `"Name"` is read; an unhashable (list/dict)
name raises `TypeError` on the dict assignment.

`pyReplaceQuotes` is `value.replace(r'"', r'')`: attribute lookup of
`.replace` on a non-string raises `AttributeError`. -/
def pyReplaceQuotes : Json → Except PyError String
  | .str s => .ok (pyStripQuotes s)
  | _ => .error .attributeError

/-- The dict assignment `website_cookies[name] = v`: an unhashable
(list/dict) name raises `TypeError`, otherwise `pySetKey`. -/
def pyDictAssign (acc : List (Json × Json)) (name v : Json) :
    Except PyError (List (Json × Json)) :=
  match name with
  | .arr _ => .error .typeError
  | .obj _ => .error .typeError
  | _ => .ok (pySetKey acc name v)

def cookieStep (acc : List (Json × Json)) (cookie : Json) :
    Except PyError (List (Json × Json)) := do
  let value ← cookie.getKey "Value"
  let stripped ← pyReplaceQuotes value
  let name ← cookie.getKey "Name"
  pyDictAssign acc name (.str stripped)

/-- The cookie loop over a list of entries, accumulating the dict. -/
def cookieLoop (cookies : List Json) (acc : List (Json × Json)) :
    Except PyError (List (Json × Json)) :=
  match cookies with
  | [] => .ok acc
  | c :: cs => do cookieLoop cs (← cookieStep acc c)

/-- Iterating `tokens["website_cookies"]`: a JSON array iterates its
elements; iterating a string or dict yields characters resp. keys, on which
the subscript `cookie["Value"]` raises `TypeError` unless it is empty;
numbers, booleans and `null` are not iterable at all. -/
def flattenWebsiteCookies : Json → Except PyError (List (Json × Json))
  | .arr cs => cookieLoop cs []
  | .str s => if s.isEmpty then .ok [] else .error .typeError
  | .obj fields => if fields.isEmpty then .ok [] else .error .typeError
  | _ => .error .typeError

/-- The flat credential dict returned by `_register` (the spec's
CredentialBundle), with the nine fields in the order the source builds
them. -/
structure CredentialBundle where
  adp_token : Json
  device_private_key : Json
  access_token : Json
  refresh_token : Json
  expires : Int
  website_cookies : List (Json × Json)
  store_authentication_cookie : Json
  device_info : Json
  customer_info : Json

/-- `resp_json["response"]["success"]`. -/
def pathSuccess (resp_json : Json) : Except PyError Json := do
  (← resp_json.getKey "response").getKey "success"

/-- The body of `_register` after the status check: field extraction from
`resp_json`, in source order, wrapped into the returned dict. -/
def extractBundle (resp_json : Json) (now : Int) :
    Except PyError CredentialBundle := do
  let success_response ← pathSuccess resp_json
  let tokens ← success_response.getKey "tokens"
  let adp_token ← (← tokens.getKey "mac_dms").getKey "adp_token"
  let device_private_key ← (← tokens.getKey "mac_dms").getKey "device_private_key"
  let store_authentication_cookie ← tokens.getKey "store_authentication_cookie"
  let access_token ← (← tokens.getKey "bearer").getKey "access_token"
  let refresh_token ← (← tokens.getKey "bearer").getKey "refresh_token"
  let expires_s ← pyInt (← (← tokens.getKey "bearer").getKey "expires_in")
  let expires : Int := now + expires_s
  let extensions ← success_response.getKey "extensions"
  let device_info ← extensions.getKey "device_info"
  let customer_info ← extensions.getKey "customer_info"
  let website_cookies ← flattenWebsiteCookies (← tokens.getKey "website_cookies")
  return ⟨adp_token, device_private_key, access_token, refresh_token, expires,
          website_cookies, store_authentication_cookie, device_info,
          customer_info⟩

/-- The request `_register(body, domain)` posts. -/
def _registerRequest (body : Json) (domain : String) : HttpRequest :=
  ⟨"https://api.amazon." ++ domain ++ "/auth/register", body, []⟩

/-- `_register(body, domain)`, given the transport's response `resp` and the
processing instant `now`: non-200 raises `Exception(resp_json)`, otherwise
the response is decoded into the credential dict. -/
def _register (body : Json) (domain : String) (resp : HttpResponse)
    (now : Int) : Except PyError CredentialBundle :=
  if resp.status ≠ 200 then .error (.exc resp.body)
  else extractBundle resp.body now

/-- Modelled from the spec: `Login.buildClientId(serial) -> string` is a
deterministic device client-id derivation provided by the login
collaborator (`audible/login.py`, not among the given sources).  The spec
fixes only that it is a deterministic function of the serial, so the body
below is a stand-in; no theorem depends on its value. -/
def build_client_id (serial : String) : String := serial

/-- The body `register(access_token, domain, serial)` posts:
`_build_registration_body` plus `body["auth_data"] = {"access_token": ...}`. -/
def registerBody (access_token : String) (domain : String) (serial : String) :
    Json :=
  (_build_registration_body domain serial).setKey "auth_data"
    (.obj [("access_token", .str access_token)])

/-- `register(access_token, domain, serial)` — register a new Audible
device with an access token, given the transport's response. -/
def register (access_token : String) (domain : String) (serial : String)
    (resp : HttpResponse) (now : Int) : Except PyError CredentialBundle :=
  _register (registerBody access_token domain serial) domain resp now

/-- The body `register_auth_code(...)` posts: `_build_registration_body`
plus the five-field authorization-code `auth_data`. -/
def registerAuthCodeBody (authorization_code : String) (code_verifier : String)
    (domain : String) (serial : String) : Json :=
  (_build_registration_body domain serial).setKey "auth_data"
    (.obj [
      ("client_id", .str (build_client_id serial)),
      ("authorization_code", .str authorization_code),
      ("code_verifier", .str code_verifier),
      ("code_algorithm", .str "SHA-256"),
      ("client_domain", .str "DeviceLegacy")])

/-- `register_auth_code(authorization_code, code_verifier, domain, serial)`
— register a new Audible device with an authorization code, given the
transport's response. -/
def register_auth_code (authorization_code : String) (code_verifier : String)
    (domain : String) (serial : String) (resp : HttpResponse) (now : Int) :
    Except PyError CredentialBundle :=
  _register (registerAuthCodeBody authorization_code code_verifier domain serial)
    domain resp now

/-- The request `deregister(access_token, domain, deregister_all)` posts. -/
def deregisterRequest (access_token : String) (domain : String)
    (deregister_all : Bool) : HttpRequest :=
  ⟨"https://api.amazon." ++ domain ++ "/auth/deregister",
   .obj [("deregister_all_existing_accounts", .bool deregister_all)],
   [("Authorization", "Bearer " ++ access_token)]⟩

/-- The request `deregister` posts when `deregister_all` is omitted: the
Python default is `False`. -/
def deregisterRequestDefault (access_token : String) (domain : String) :
    HttpRequest :=
  deregisterRequest access_token domain false

/-- `deregister(access_token, domain, deregister_all)`, given the
transport's response: non-200 raises `Exception(resp_json)`, otherwise the
decoded JSON body is returned unmodified. -/
def deregister (access_token : String) (domain : String)
    (deregister_all : Bool) (resp : HttpResponse) : Except PyError Json :=
  if resp.status ≠ 200 then .error (.exc resp.body)
  else .ok resp.body

/-- The sub-path of the response that determines the expiry:
`int(resp_json["response"]["success"]["tokens"]["bearer"]["expires_in"])`. -/
def parsedExpiresIn (resp_json : Json) : Except PyError Int := do
  let tokens ← (← pathSuccess resp_json).getKey "tokens"
  pyInt (← (← tokens.getKey "bearer").getKey "expires_in")

/-- `resp_json["response"]["success"]["tokens"]`. -/
def pathTokens (resp_json : Json) : Except PyError Json := do
  (← pathSuccess resp_json).getKey "tokens"

/-- `tokens["mac_dms"]["adp_token"]`. -/
def pathAdpToken (resp_json : Json) : Except PyError Json := do
  (← (← pathTokens resp_json).getKey "mac_dms").getKey "adp_token"

/-- `tokens["mac_dms"]["device_private_key"]`. -/
def pathDevicePrivateKey (resp_json : Json) : Except PyError Json := do
  (← (← pathTokens resp_json).getKey "mac_dms").getKey "device_private_key"

/-- `tokens["store_authentication_cookie"]`. -/
def pathStoreAuthCookie (resp_json : Json) : Except PyError Json := do
  (← pathTokens resp_json).getKey "store_authentication_cookie"

/-- `tokens["bearer"]["access_token"]`. -/
def pathAccessToken (resp_json : Json) : Except PyError Json := do
  (← (← pathTokens resp_json).getKey "bearer").getKey "access_token"

/-- `tokens["bearer"]["refresh_token"]`. -/
def pathRefreshToken (resp_json : Json) : Except PyError Json := do
  (← (← pathTokens resp_json).getKey "bearer").getKey "refresh_token"

/-- `success_response["extensions"]`. -/
def pathExtensions (resp_json : Json) : Except PyError Json := do
  (← pathSuccess resp_json).getKey "extensions"

/-- `extensions["device_info"]`. -/
def pathDeviceInfo (resp_json : Json) : Except PyError Json := do
  (← pathExtensions resp_json).getKey "device_info"

/-- `extensions["customer_info"]`. -/
def pathCustomerInfo (resp_json : Json) : Except PyError Json := do
  (← pathExtensions resp_json).getKey "customer_info"

/-- `tokens["website_cookies"]`, the raw cookie sequence. -/
def pathWebsiteCookies (resp_json : Json) : Except PyError Json := do
  (← pathTokens resp_json).getKey "website_cookies"

/-- A 200 body whose `response.success` is present but whose
`tokens.mac_dms` dict lacks the required `adp_token` field. -/
def exRespMissingAdp : Json :=
  Json.obj [("response", Json.obj [("success", Json.obj [
    ("tokens", Json.obj [("mac_dms", Json.obj [])])])])]

/-- A website-cookie entry `{"Name": name, "Value": value}` from a pair of
strings. -/
def mkCookie (p : String × String) : Json :=
  .obj [("Name", .str p.1), ("Value", .str p.2)]

/-- The pure shape of the cookie loop on well-formed (string/string)
entries: repeated Python dict assignment of the quote-stripped value. -/
def cookieFold (ps : List (String × String)) (acc : List (Json × Json)) :
    List (Json × Json) :=
  match ps with
  | [] => acc
  | p :: rest => cookieFold rest (pySetKey acc (.str p.1) (.str (pyStripQuotes p.2)))

/-- The value of the last pair whose name is `k`, if any (the reference
notion "each name maps to the value of the last pair with that name"). -/
def lastWins (ps : List (String × String)) (k : String) : Option String :=
  match ps with
  | [] => none
  | p :: rest =>
    match lastWins rest k with
    | some v => some v
    | none => if p.1 = k then some p.2 else none

/-- A well-formed success response body used as a concrete witness:
`expires_in = 3600`, three website cookies with a duplicate name and an
escaped quote. -/
def exRespBody : Json :=
  Json.obj [("response", Json.obj [("success", Json.obj [
    ("tokens", Json.obj [
      ("mac_dms", Json.obj [("adp_token", Json.str "adp"),
                            ("device_private_key", Json.str "dpk")]),
      ("store_authentication_cookie", Json.obj [("cookie", Json.str "sac")]),
      ("bearer", Json.obj [("access_token", Json.str "at"),
                           ("refresh_token", Json.str "rt"),
                           ("expires_in", Json.str "3600")]),
      ("website_cookies", Json.arr [
        Json.obj [("Name", Json.str "a"), ("Value", Json.str "1\"")],
        Json.obj [("Name", Json.str "b"), ("Value", Json.str "2")],
        Json.obj [("Name", Json.str "a"), ("Value", Json.str "3")]])]),
    ("extensions", Json.obj [("device_info", Json.str "di"),
                             ("customer_info", Json.str "ci")])])])]

/-- The credential dict `_register` produces from `exRespBody` at
`now = 1000`. -/
def exBundle : CredentialBundle :=
  ⟨Json.str "adp", Json.str "dpk", Json.str "at", Json.str "rt", 4600,
   [(Json.str "a", Json.str "3"), (Json.str "b", Json.str "2")],
   Json.obj [("cookie", Json.str "sac")], Json.str "di", Json.str "ci"⟩

/-- Replace the `cookies.domain` field with `null`, leaving the rest of the
body untouched. -/
def maskCookieDomain (j : Json) : Json :=
  match j.getKey "cookies" with
  | .ok c => j.setKey "cookies" (c.setKey "domain" Json.null)
  | .error _ => j

/-! ## Helper lemmas -/

/-- Bind on a succeeding `Except` computation. -/
@[simp] theorem pyBindOk {α β : Type} (a : α) (f : α → Except PyError β) :
    (Except.ok a >>= f) = f a := rfl

/-- Bind on a failing `Except` computation propagates the exception. -/
@[simp] theorem pyBindError {α β : Type} (e : PyError)
    (f : α → Except PyError β) :
    ((Except.error e : Except PyError α) >>= f) = .error e := rfl

/-- `pure` on `Except` is `ok`. -/
@[simp] theorem pyPureOk {α : Type} (a : α) :
    (pure a : Except PyError α) = .ok a := rfl

/-! ## C1 — error propagation on non-200 statuses -/

/-- C1 (counterexample): the claim requires the raised error to carry the
HTTP status code and to be a registration- resp. deregistration-specific
kind.  At statuses 400 and 500 with the same body, `register` raises
literally identical errors, so the error cannot carry the status; and
`deregister` raises the very same generic `Exception` value as `register`,
so the kinds are not distinct. -/
theorem register_error_drops_status :
    (register "tok" "com" "ser" ⟨400, Json.obj [("error", Json.str "x")]⟩ 0 =
      register "tok" "com" "ser" ⟨500, Json.obj [("error", Json.str "x")]⟩ 0) ∧
    (400 : Nat) ≠ 500 ∧
    register "tok" "com" "ser" ⟨400, Json.obj [("error", Json.str "x")]⟩ 0 =
      .error (.exc (Json.obj [("error", Json.str "x")])) ∧
    deregister "tok" "com" false ⟨400, Json.obj [("error", Json.str "x")]⟩ =
      .error (.exc (Json.obj [("error", Json.str "x")])) :=
  ⟨rfl, by decide, rfl, rfl⟩

/-- C1 (amended): on any non-200 status, `register`, `register_auth_code`
and `deregister` all raise an exception carrying exactly the decoded server
JSON body — but it is the same generic exception for both endpoints and it
does not include the status code. -/
theorem non200_raises_exact_body (tok ac cv domain serial : String)
    (resp : HttpResponse) (now : Int) (deregister_all : Bool)
    (h : resp.status ≠ 200) :
    register tok domain serial resp now = .error (.exc resp.body) ∧
    register_auth_code ac cv domain serial resp now = .error (.exc resp.body) ∧
    deregister tok domain deregister_all resp = .error (.exc resp.body) := by
  refine ⟨?_, ?_, ?_⟩ <;> simp [register, register_auth_code, deregister, _register, h]

/-- C1 amended, witnessed at status 404. -/
theorem non200_raises_exact_body_witness :
    register "t" "com" "s" ⟨404, Json.null⟩ 0 = .error (.exc Json.null) ∧
    register_auth_code "a" "c" "com" "s" ⟨404, Json.null⟩ 0 =
      .error (.exc Json.null) ∧
    deregister "t" "com" false ⟨404, Json.null⟩ = .error (.exc Json.null) :=
  non200_raises_exact_body "t" "a" "c" "com" "s" ⟨404, Json.null⟩ 0 false
    (by decide)

/-! ## C5 — the two entry points differ only in auth_data -/

/-- C5: for any domain and serial the two entry points post bodies that are
the shared `_build_registration_body` plus an `auth_data` field — identical
in every fixed field — and both feed the response through the same
`_register`, so on the same server response they return equal results. -/
theorem register_variants_differ_only_in_auth_data
    (access_token authorization_code code_verifier domain serial : String)
    (resp : HttpResponse) (now : Int) :
    (∃ fs a1 a2,
      _build_registration_body domain serial = Json.obj fs ∧
      registerBody access_token domain serial =
        Json.obj (fs ++ [("auth_data", a1)]) ∧
      registerAuthCodeBody authorization_code code_verifier domain serial =
        Json.obj (fs ++ [("auth_data", a2)])) ∧
    register access_token domain serial resp now =
      register_auth_code authorization_code code_verifier domain serial resp
        now :=
  ⟨⟨_, _, _, rfl, rfl, rfl⟩, rfl⟩

/-! ## C6 — cookie domain -/

/-- C6: the built registration request's `cookies.domain` field is exactly
`".amazon." ++ domain`, for every domain and serial. -/
theorem cookies_domain_exact (domain serial : String) :
    (do (← (_build_registration_body domain serial).getKey "cookies").getKey "domain") =
      Except.ok (Json.str (".amazon." ++ domain)) := rfl

/-! ## C7 — deregister request and 200 passthrough -/

/-- C7: `deregister` posts `{"deregister_all_existing_accounts": flag}` —
`false` when the parameter is omitted — with an `Authorization: Bearer`
header, and on HTTP 200 returns the decoded server body unmodified. -/
theorem deregister_request_and_passthrough (access_token domain : String)
    (deregister_all : Bool) (resp : HttpResponse) :
    (deregisterRequest access_token domain deregister_all).body =
      Json.obj [("deregister_all_existing_accounts", .bool deregister_all)] ∧
    (deregisterRequestDefault access_token domain).body =
      Json.obj [("deregister_all_existing_accounts", .bool false)] ∧
    (deregisterRequest access_token domain deregister_all).headers =
      [("Authorization", "Bearer " ++ access_token)] ∧
    (resp.status = 200 →
      deregister access_token domain deregister_all resp = .ok resp.body) := by
  refine ⟨rfl, rfl, rfl, fun h => ?_⟩
  simp [deregister, h]

/-- C7, witnessed: a 200 acknowledgment that itself contains an `errors`
field is returned unmodified. -/
theorem deregister_request_and_passthrough_witness :
    deregister "t" "com" true ⟨200, Json.obj [("errors", Json.str "e")]⟩ =
      .ok (Json.obj [("errors", Json.str "e")]) :=
  (deregister_request_and_passthrough "t" "com" true
    ⟨200, Json.obj [("errors", Json.str "e")]⟩).2.2.2 rfl

/-! ## C8 — authorization-code auth_data -/

/-- C8: the authorization-code entry point posts an `auth_data` consisting
of exactly the five fields client_id (from `build_client_id serial`),
authorization_code, code_verifier, code_algorithm = "SHA-256" and
client_domain = "DeviceLegacy". -/
theorem auth_code_auth_data_exact (authorization_code code_verifier domain
    serial : String) :
    (registerAuthCodeBody authorization_code code_verifier domain
      serial).getKey "auth_data" =
      Except.ok (Json.obj [
        ("client_id", .str (build_client_id serial)),
        ("authorization_code", .str authorization_code),
        ("code_verifier", .str code_verifier),
        ("code_algorithm", .str "SHA-256"),
        ("client_domain", .str "DeviceLegacy")]) := rfl

/-! ## C9 — registration_data.domain is the constant "Device" -/

/-- C9: `registration_data.domain` is the constant `"Device"` whatever the
caller-supplied domain; the caller's domain reaches only the request URL
and `cookies.domain` — masking `cookies.domain` makes the bodies built for
any two domains identical. -/
theorem registration_data_domain_constant (domain otherDomain serial : String)
    (body : Json) :
    (do (← (_build_registration_body domain serial).getKey "registration_data").getKey "domain") =
      Except.ok (Json.str "Device") ∧
    (_registerRequest body domain).url =
      "https://api.amazon." ++ domain ++ "/auth/register" ∧
    maskCookieDomain (_build_registration_body domain serial) =
      maskCookieDomain (_build_registration_body otherDomain serial) :=
  ⟨rfl, rfl, rfl⟩

/-! ## C4 / C10 — website-cookie flattening -/

/-- Dict-key equality against a string key holds exactly for the identical
string key. -/
theorem eqKey_str (k0 : Json) (a : String) :
    k0.eqKey (.str a) = true ↔ k0 = .str a := by
  cases k0 <;> simp [Json.eqKey]

/-- On well-formed `{Name, Value}` string entries, the cookie loop is the
pure fold `cookieFold`. -/
theorem cookieLoop_mk (ps : List (String × String))
    (acc : List (Json × Json)) :
    cookieLoop (ps.map mkCookie) acc = .ok (cookieFold ps acc) := by
  induction ps generalizing acc with
  | nil => rfl
  | cons p rest ih =>
    have hstep : cookieStep acc (mkCookie p) =
        .ok (pySetKey acc (.str p.1) (.str (pyStripQuotes p.2))) := rfl
    simp [cookieLoop, hstep, cookieFold]
    exact ih _

/-- Lookup after a Python dict assignment with a string key. -/
theorem pyGet_pySet_str (acc : List (Json × Json)) (a b : String) (v : Json) :
    pyGetKey (pySetKey acc (.str a) v) (.str b) =
      if a = b then some v else pyGetKey acc (.str b) := by
  induction acc with
  | nil =>
    by_cases hab : a = b <;> simp [pySetKey, pyGetKey, Json.eqKey, hab]
  | cons kv rest ih =>
    obtain ⟨k0, v0⟩ := kv
    by_cases h0 : k0.eqKey (.str a) = true
    · have hk : k0 = .str a := (eqKey_str k0 a).mp h0
      subst hk
      by_cases hab : a = b <;> simp [pySetKey, pyGetKey, Json.eqKey, hab]
    · by_cases hb : k0.eqKey (.str b) = true
      · have hk : k0 = .str b := (eqKey_str k0 b).mp hb
        subst hk
        have hab : ¬a = b := fun h => h0 (by simp [h, Json.eqKey])
        have hba : ¬b = a := fun h => hab h.symm
        simp [pySetKey, pyGetKey, Json.eqKey, hba, hab]
      · simp [pySetKey, pyGetKey, h0, hb, ih]

/-- Lookup in the flattened cookie dict: the last pair with the queried
name wins, with literal double quotes stripped from its value; names not
assigned by the fold fall through to the initial accumulator. -/
theorem cookieFold_lookup (ps : List (String × String)) (k : String)
    (acc : List (Json × Json)) :
    pyGetKey (cookieFold ps acc) (.str k) =
      match lastWins ps k with
      | some v => some (.str (pyStripQuotes v))
      | none => pyGetKey acc (.str k) := by
  induction ps generalizing acc with
  | nil => rfl
  | cons p rest ih =>
    rw [cookieFold, ih, lastWins]
    cases hl : lastWins rest k with
    | some v => rfl
    | none => by_cases hp : p.1 = k <;> simp [pyGet_pySet_str, hp]

/-- The keys after a Python dict assignment with a string key are the old
keys plus (possibly) the new one. -/
theorem keys_pySet_str (acc : List (Json × Json)) (a : String) (v j : Json) :
    j ∈ (pySetKey acc (.str a) v).map Prod.fst ↔
      j = .str a ∨ j ∈ acc.map Prod.fst := by
  induction acc with
  | nil => simp [pySetKey]
  | cons kv rest ih =>
    obtain ⟨k0, v0⟩ := kv
    by_cases h0 : k0.eqKey (.str a) = true
    · have hk : k0 = .str a := (eqKey_str k0 a).mp h0
      subst hk
      simp [pySetKey, Json.eqKey]
    · simp [pySetKey, h0, ih]
      tauto

/-- The key set of the flattened cookie dict is the initial accumulator's
keys plus exactly the `.str`-wrapped names occurring in the input. -/
theorem cookieFold_keys (ps : List (String × String))
    (acc : List (Json × Json)) (j : Json) :
    j ∈ (cookieFold ps acc).map Prod.fst ↔
      (∃ k, j = Json.str k ∧ k ∈ ps.map Prod.fst) ∨ j ∈ acc.map Prod.fst := by
  induction ps generalizing acc with
  | nil => simp [cookieFold]
  | cons p rest ih =>
    rw [cookieFold, ih, keys_pySet_str]
    constructor
    · rintro (⟨k, hk, hmem⟩ | h | h)
      · exact Or.inl ⟨k, hk, List.mem_cons_of_mem _ hmem⟩
      · exact Or.inl ⟨p.1, h, by simp⟩
      · exact Or.inr h
    · rintro (⟨k, hk, hmem⟩ | h)
      · rw [List.map_cons] at hmem
        rcases List.mem_cons.mp hmem with h1 | h2
        · exact Or.inr (Or.inl (by rw [hk, h1]))
        · exact Or.inl ⟨k, hk, h2⟩
      · exact Or.inr (Or.inr h)

/-- C4: flattening any sequence of `{Name, Value}` pairs yields the dict in
which each name maps to the value of the last pair carrying that name with
every literal double-quote character removed; on the spec's concrete input
the result is exactly `{"a": "3", "b": "2"}`. -/
theorem website_cookies_last_wins_quotes_stripped
    (ps : List (String × String)) (k : String) :
    flattenWebsiteCookies (Json.arr (ps.map mkCookie)) =
      .ok (cookieFold ps []) ∧
    pyGetKey (cookieFold ps []) (.str k) =
      (lastWins ps k).map (fun v => Json.str (pyStripQuotes v)) ∧
    flattenWebsiteCookies (Json.arr
      [mkCookie ("a", "1\""), mkCookie ("b", "2"), mkCookie ("a", "3")]) =
      .ok [(.str "a", .str "3"), (.str "b", .str "2")] := by
  refine ⟨cookieLoop_mk ps [], ?_, rfl⟩
  rw [cookieFold_lookup]
  cases lastWins ps k <;> rfl

/-- C10: the key set of the flattened mapping is exactly the set of
distinct names occurring in the input sequence — none dropped, none
invented — and the empty sequence yields the empty mapping. -/
theorem website_cookies_key_set_exact (ps : List (String × String)) :
    flattenWebsiteCookies (Json.arr (ps.map mkCookie)) =
      .ok (cookieFold ps []) ∧
    (∀ j : Json, j ∈ (cookieFold ps []).map Prod.fst ↔
      ∃ k, j = Json.str k ∧ k ∈ ps.map Prod.fst) ∧
    flattenWebsiteCookies (Json.arr []) = .ok [] := by
  refine ⟨cookieLoop_mk ps [], fun j => ?_, rfl⟩
  rw [cookieFold_keys]
  simp

/-! ## C2 — malformed 200 responses fail with a decoding-kind error -/

/-- Composing two computations that can only fail with decoding-kind errors
can only fail with a decoding-kind error. -/
theorem bindDecode {α β : Type} (x : Except PyError α)
    (g : α → Except PyError β)
    (hx : ∀ e, x = .error e → e.isDecode = true)
    (hg : ∀ a e, g a = .error e → e.isDecode = true)
    (e : PyError) (h : (x >>= g) = .error e) : e.isDecode = true := by
  cases x with
  | error e0 =>
    rw [pyBindError] at h
    injection h with h0
    exact h0 ▸ hx e0 rfl
  | ok a =>
    rw [pyBindOk] at h
    exact hg a e h

/-- Subscripting can fail only with KeyError or TypeError, never with the
generic registration exception. -/
theorem getKey_decode (j : Json) (k : String) (e : PyError)
    (h : j.getKey k = .error e) : e.isDecode = true := by
  cases j with
  | obj fields =>
    cases hl : fields.lookup k with
    | some v => simp [Json.getKey, hl] at h
    | none => simp [Json.getKey, hl] at h; rw [← h]; rfl
  | null => simp [Json.getKey] at h; rw [← h]; rfl
  | bool b => simp [Json.getKey] at h; rw [← h]; rfl
  | num n => simp [Json.getKey] at h; rw [← h]; rfl
  | str s => simp [Json.getKey] at h; rw [← h]; rfl
  | arr elems => simp [Json.getKey] at h; rw [← h]; rfl

/-- `int()` can fail only with ValueError or TypeError. -/
theorem pyInt_decode (j : Json) (e : PyError) (h : pyInt j = .error e) :
    e.isDecode = true := by
  cases j with
  | str s =>
    cases hp : pyIntOfChars s.data with
    | some n => simp [pyInt, hp] at h
    | none => simp [pyInt, hp] at h; rw [← h]; rfl
  | num n => simp [pyInt] at h
  | bool b => simp [pyInt] at h
  | null => simp [pyInt] at h; rw [← h]; rfl
  | arr elems => simp [pyInt] at h; rw [← h]; rfl
  | obj fields => simp [pyInt] at h; rw [← h]; rfl

/-- `response.success` extraction can fail only with a decoding-kind
error. -/
theorem pathSuccess_decode (j : Json) (e : PyError)
    (h : pathSuccess j = .error e) : e.isDecode = true := by
  rw [pathSuccess] at h
  exact bindDecode _ _ (fun e0 h0 => getKey_decode _ _ _ h0)
    (fun a e0 h0 => getKey_decode _ _ _ h0) e h

/-- One cookie-loop iteration can fail only with a decoding-kind error. -/
theorem cookieStep_decode (acc : List (Json × Json)) (c : Json) (e : PyError)
    (h : cookieStep acc c = .error e) : e.isDecode = true := by
  rw [cookieStep] at h
  refine bindDecode _ _ (fun e0 h0 => getKey_decode _ _ _ h0) ?_ e h
  intro value e1 h1
  refine bindDecode _ _ ?_ ?_ e1 h1
  · intro e2 h2
    cases value <;> simp [pyReplaceQuotes] at h2 <;> (rw [← h2]; rfl)
  · intro stripped e2 h2
    refine bindDecode _ _ (fun e0 h0 => getKey_decode _ _ _ h0) ?_ e2 h2
    intro name e3 h3
    cases name <;> simp [pyDictAssign] at h3 <;> (rw [← h3]; rfl)

/-- The whole cookie loop can fail only with a decoding-kind error. -/
theorem cookieLoop_decode (cookies : List Json) :
    ∀ (acc : List (Json × Json)) (e : PyError),
      cookieLoop cookies acc = .error e → e.isDecode = true := by
  induction cookies with
  | nil => intro acc e h; simp [cookieLoop] at h
  | cons c cs ih =>
    intro acc e h
    rw [cookieLoop] at h
    exact bindDecode _ _ (fun e0 h0 => cookieStep_decode acc c e0 h0)
      (fun acc1 e0 h0 => ih acc1 e0 h0) e h

/-- Cookie flattening can fail only with a decoding-kind error. -/
theorem flattenWebsiteCookies_decode (j : Json) (e : PyError)
    (h : flattenWebsiteCookies j = .error e) : e.isDecode = true := by
  cases j with
  | arr cs => exact cookieLoop_decode cs [] e h
  | str s =>
    by_cases hs : s.isEmpty <;> simp [flattenWebsiteCookies, hs] at h
    rw [← h]; rfl
  | obj fields =>
    by_cases hs : fields.isEmpty <;> simp [flattenWebsiteCookies, hs] at h
    rw [← h]; rfl
  | null => simp [flattenWebsiteCookies] at h; rw [← h]; rfl
  | bool b => simp [flattenWebsiteCookies] at h; rw [← h]; rfl
  | num n => simp [flattenWebsiteCookies] at h; rw [← h]; rfl

/-- Every failure of the post-200 extraction is a decoding-kind error. -/
theorem extractBundle_decode (resp_json : Json) (now : Int) (e : PyError)
    (h : extractBundle resp_json now = .error e) : e.isDecode = true := by
  rw [extractBundle] at h
  refine bindDecode _ _ (fun e0 h0 => pathSuccess_decode _ _ h0) ?_ e h
  intro success_response e1 h1
  refine bindDecode _ _ (fun e0 h0 => getKey_decode _ _ _ h0) ?_ e1 h1
  intro tokens e2 h2
  refine bindDecode _ _ (fun e0 h0 => getKey_decode _ _ _ h0) ?_ e2 h2
  intro x1 e3 h3
  refine bindDecode _ _ (fun e0 h0 => getKey_decode _ _ _ h0) ?_ e3 h3
  intro adp_token e4 h4
  refine bindDecode _ _ (fun e0 h0 => getKey_decode _ _ _ h0) ?_ e4 h4
  intro x2 e5 h5
  refine bindDecode _ _ (fun e0 h0 => getKey_decode _ _ _ h0) ?_ e5 h5
  intro device_private_key e6 h6
  refine bindDecode _ _ (fun e0 h0 => getKey_decode _ _ _ h0) ?_ e6 h6
  intro store_authentication_cookie e7 h7
  refine bindDecode _ _ (fun e0 h0 => getKey_decode _ _ _ h0) ?_ e7 h7
  intro x3 e8 h8
  refine bindDecode _ _ (fun e0 h0 => getKey_decode _ _ _ h0) ?_ e8 h8
  intro access_token e9 h9
  refine bindDecode _ _ (fun e0 h0 => getKey_decode _ _ _ h0) ?_ e9 h9
  intro x4 e10 h10
  refine bindDecode _ _ (fun e0 h0 => getKey_decode _ _ _ h0) ?_ e10 h10
  intro refresh_token e11 h11
  refine bindDecode _ _ (fun e0 h0 => getKey_decode _ _ _ h0) ?_ e11 h11
  intro x5 e12 h12
  refine bindDecode _ _ (fun e0 h0 => getKey_decode _ _ _ h0) ?_ e12 h12
  intro x6 e13 h13
  refine bindDecode _ _ (fun e0 h0 => pyInt_decode _ _ h0) ?_ e13 h13
  intro expires_s e14 h14
  refine bindDecode _ _ (fun e0 h0 => getKey_decode _ _ _ h0) ?_ e14 h14
  intro extensions e15 h15
  refine bindDecode _ _ (fun e0 h0 => getKey_decode _ _ _ h0) ?_ e15 h15
  intro device_info e16 h16
  refine bindDecode _ _ (fun e0 h0 => getKey_decode _ _ _ h0) ?_ e16 h16
  intro customer_info e17 h17
  refine bindDecode _ _ (fun e0 h0 => getKey_decode _ _ _ h0) ?_ e17 h17
  intro x7 e18 h18
  refine bindDecode _ _ (fun e0 h0 => flattenWebsiteCookies_decode _ _ h0)
    ?_ e18 h18
  intro website_cookies e19 h19
  rw [pyPureOk] at h19
  cases h19

/-- Whenever the post-200 extraction returns a bundle, every required
nested token/extension field was present in the response — each path
extraction succeeds — and the bundle is assembled from exactly those
values. -/
theorem extractBundle_complete (j : Json) (now : Int) (b : CredentialBundle)
    (h : extractBundle j now = .ok b) :
    ∃ adp dpk sac atk rtk n wcraw wcs di ci,
      pathAdpToken j = .ok adp ∧
      pathDevicePrivateKey j = .ok dpk ∧
      pathStoreAuthCookie j = .ok sac ∧
      pathAccessToken j = .ok atk ∧
      pathRefreshToken j = .ok rtk ∧
      parsedExpiresIn j = .ok n ∧
      pathDeviceInfo j = .ok di ∧
      pathCustomerInfo j = .ok ci ∧
      pathWebsiteCookies j = .ok wcraw ∧
      flattenWebsiteCookies wcraw = .ok wcs ∧
      b = ⟨adp, dpk, atk, rtk, now + n, wcs, sac, di, ci⟩ := by
  rw [extractBundle] at h
  cases h1 : pathSuccess j with
  | error e => rw [h1] at h; simp at h
  | ok success_response =>
  rw [h1] at h; simp only [pyBindOk] at h
  cases h2 : success_response.getKey "tokens" with
  | error e => rw [h2] at h; simp at h
  | ok tokens =>
  rw [h2] at h; simp only [pyBindOk] at h
  cases h3 : tokens.getKey "mac_dms" with
  | error e => rw [h3] at h; simp at h
  | ok mac_dms =>
  rw [h3] at h; simp only [pyBindOk] at h
  cases h4 : mac_dms.getKey "adp_token" with
  | error e => rw [h4] at h; simp at h
  | ok adp_token =>
  rw [h4] at h; simp only [pyBindOk] at h
  cases h5 : mac_dms.getKey "device_private_key" with
  | error e => rw [h5] at h; simp at h
  | ok device_private_key =>
  rw [h5] at h; simp only [pyBindOk] at h
  cases h6 : tokens.getKey "store_authentication_cookie" with
  | error e => rw [h6] at h; simp at h
  | ok store_authentication_cookie =>
  rw [h6] at h; simp only [pyBindOk] at h
  cases h7 : tokens.getKey "bearer" with
  | error e => rw [h7] at h; simp at h
  | ok bearer =>
  rw [h7] at h; simp only [pyBindOk] at h
  cases h8 : bearer.getKey "access_token" with
  | error e => rw [h8] at h; simp at h
  | ok access_token =>
  rw [h8] at h; simp only [pyBindOk] at h
  cases h9 : bearer.getKey "refresh_token" with
  | error e => rw [h9] at h; simp at h
  | ok refresh_token =>
  rw [h9] at h; simp only [pyBindOk] at h
  cases h10 : bearer.getKey "expires_in" with
  | error e => rw [h10] at h; simp at h
  | ok expires_in_raw =>
  rw [h10] at h; simp only [pyBindOk] at h
  cases h11 : pyInt expires_in_raw with
  | error e => rw [h11] at h; simp at h
  | ok expires_s =>
  rw [h11] at h; simp only [pyBindOk] at h
  cases h12 : success_response.getKey "extensions" with
  | error e => rw [h12] at h; simp at h
  | ok extensions =>
  rw [h12] at h; simp only [pyBindOk] at h
  cases h13 : extensions.getKey "device_info" with
  | error e => rw [h13] at h; simp at h
  | ok device_info =>
  rw [h13] at h; simp only [pyBindOk] at h
  cases h14 : extensions.getKey "customer_info" with
  | error e => rw [h14] at h; simp at h
  | ok customer_info =>
  rw [h14] at h; simp only [pyBindOk] at h
  cases h15 : tokens.getKey "website_cookies" with
  | error e => rw [h15] at h; simp at h
  | ok wc_raw =>
  rw [h15] at h; simp only [pyBindOk] at h
  cases h16 : flattenWebsiteCookies wc_raw with
  | error e => rw [h16] at h; simp at h
  | ok website_cookies =>
  rw [h16] at h; simp only [pyBindOk, pyPureOk] at h
  injection h with hb
  have hT : pathTokens j = .ok tokens := by
    rw [pathTokens, h1]; simp only [pyBindOk]; exact h2
  have hAdp : pathAdpToken j = .ok adp_token := by
    rw [pathAdpToken, hT]; simp only [pyBindOk]
    rw [h3]; simp only [pyBindOk]; exact h4
  have hDpk : pathDevicePrivateKey j = .ok device_private_key := by
    rw [pathDevicePrivateKey, hT]; simp only [pyBindOk]
    rw [h3]; simp only [pyBindOk]; exact h5
  have hSac : pathStoreAuthCookie j = .ok store_authentication_cookie := by
    rw [pathStoreAuthCookie, hT]; simp only [pyBindOk]; exact h6
  have hAtk : pathAccessToken j = .ok access_token := by
    rw [pathAccessToken, hT]; simp only [pyBindOk]
    rw [h7]; simp only [pyBindOk]; exact h8
  have hRtk : pathRefreshToken j = .ok refresh_token := by
    rw [pathRefreshToken, hT]; simp only [pyBindOk]
    rw [h7]; simp only [pyBindOk]; exact h9
  have hN : parsedExpiresIn j = .ok expires_s := by
    rw [parsedExpiresIn, h1]; simp only [pyBindOk]
    rw [h2]; simp only [pyBindOk]
    rw [h7]; simp only [pyBindOk]
    rw [h10]; simp only [pyBindOk]; exact h11
  have hX : pathExtensions j = .ok extensions := by
    rw [pathExtensions, h1]; simp only [pyBindOk]; exact h12
  have hDi : pathDeviceInfo j = .ok device_info := by
    rw [pathDeviceInfo, hX]; simp only [pyBindOk]; exact h13
  have hCi : pathCustomerInfo j = .ok customer_info := by
    rw [pathCustomerInfo, hX]; simp only [pyBindOk]; exact h14
  have hWc : pathWebsiteCookies j = .ok wc_raw := by
    rw [pathWebsiteCookies, hT]; simp only [pyBindOk]; exact h15
  exact ⟨adp_token, device_private_key, store_authentication_cookie,
    access_token, refresh_token, expires_s, wc_raw, website_cookies,
    device_info, customer_info, hAdp, hDpk, hSac, hAtk, hRtk, hN, hDi, hCi,
    hWc, h16, hb.symm⟩

/-- C2: on an HTTP-200 response, (1) a body lacking the `response.success`
path makes `_register` fail with exactly that lookup's decoding-kind error;
(2) every failure of `_register` is decoding-kind; and (3) either
`_register` fails with a decoding-kind error, or every required nested
token/extension field is present (each path extraction succeeds) and the
returned bundle is populated with exactly those response values — so a body
lacking any required nested field cannot yield a bundle, and no path
returns a default or partially-populated bundle. -/
theorem register_malformed_200_fails_decoding (body : Json) (domain : String)
    (resp : HttpResponse) (now : Int) (h200 : resp.status = 200) :
    (∀ e, pathSuccess resp.body = .error e →
      _register body domain resp now = .error e ∧ e.isDecode = true) ∧
    (∀ e, _register body domain resp now = .error e → e.isDecode = true) ∧
    ((∃ e, _register body domain resp now = .error e ∧ e.isDecode = true) ∨
      (∃ adp dpk sac atk rtk n wcraw wcs di ci,
        pathAdpToken resp.body = .ok adp ∧
        pathDevicePrivateKey resp.body = .ok dpk ∧
        pathStoreAuthCookie resp.body = .ok sac ∧
        pathAccessToken resp.body = .ok atk ∧
        pathRefreshToken resp.body = .ok rtk ∧
        parsedExpiresIn resp.body = .ok n ∧
        pathDeviceInfo resp.body = .ok di ∧
        pathCustomerInfo resp.body = .ok ci ∧
        pathWebsiteCookies resp.body = .ok wcraw ∧
        flattenWebsiteCookies wcraw = .ok wcs ∧
        _register body domain resp now =
          .ok ⟨adp, dpk, atk, rtk, now + n, wcs, sac, di, ci⟩)) := by
  have hreg : _register body domain resp now = extractBundle resp.body now := by
    rw [_register]
    simp only [h200]
    rw [if_neg (by simp)]
  refine ⟨?_, ?_, ?_⟩
  · intro e he
    refine ⟨?_, pathSuccess_decode _ _ he⟩
    rw [hreg, extractBundle, he]
    rfl
  · intro e he
    rw [hreg] at he
    exact extractBundle_decode _ _ _ he
  · cases hr : extractBundle resp.body now with
    | error e => exact Or.inl ⟨e, hreg.trans hr, extractBundle_decode _ _ _ hr⟩
    | ok b =>
      obtain ⟨adp, dpk, sac, atk, rtk, n, wcraw, wcs, di, ci, hAdp, hDpk,
        hSac, hAtk, hRtk, hN, hDi, hCi, hWc, hF, hb⟩ :=
        extractBundle_complete _ _ _ hr
      exact Or.inr ⟨adp, dpk, sac, atk, rtk, n, wcraw, wcs, di, ci, hAdp,
        hDpk, hSac, hAtk, hRtk, hN, hDi, hCi, hWc, hF,
        by rw [hreg, hr, hb]⟩

/-- C2, witnessed twice: the spec's example `{"response": {"error": "x"}}`
at HTTP 200 produces a KeyError for `"success"`, and a body whose
`tokens.mac_dms` lacks the required nested `adp_token` field fails with a
KeyError for `"adp_token"` — both decoding-kind errors, never a bundle. -/
theorem register_malformed_200_fails_decoding_witness :
    (_register (Json.obj []) "com"
      ⟨200, Json.obj [("response", Json.obj [("error", Json.str "x")])]⟩ 0 =
      .error (.keyError "success") ∧
    PyError.isDecode (.keyError "success") = true) ∧
    (_register (Json.obj []) "com" ⟨200, exRespMissingAdp⟩ 0 =
      .error (.keyError "adp_token") ∧
    PyError.isDecode (.keyError "adp_token") = true) :=
  ⟨(register_malformed_200_fails_decoding (Json.obj []) "com"
      ⟨200, Json.obj [("response", Json.obj [("error", Json.str "x")])]⟩ 0
      rfl).1 (.keyError "success") rfl,
   rfl,
   (register_malformed_200_fails_decoding (Json.obj []) "com"
      ⟨200, exRespMissingAdp⟩ 0 rfl).2.1 (.keyError "adp_token") rfl⟩

/-! ## C3 — expiry is an absolute instant: receipt time + expires_in -/

/-- C3: whenever `_register` returns a bundle, the bundle's `expires`
equals `now + n` where `now` is the instant the response was processed and
`n` is the integer parsed from the response's
`response.success.tokens.bearer.expires_in` — an absolute timestamp, not a
duration. -/
theorem register_expiry_absolute (body : Json) (domain : String)
    (resp : HttpResponse) (now : Int) (b : CredentialBundle)
    (h : _register body domain resp now = .ok b) :
    ∃ n, parsedExpiresIn resp.body = .ok n ∧ b.expires = now + n := by
  rw [_register] at h
  by_cases hs : resp.status = 200
  · simp only [hs] at h
    rw [if_neg (by simp)] at h
    rw [extractBundle] at h
    cases h1 : pathSuccess resp.body with
    | error e => rw [h1] at h; simp at h
    | ok success_response =>
    rw [h1] at h; simp only [pyBindOk] at h
    cases h2 : success_response.getKey "tokens" with
    | error e => rw [h2] at h; simp at h
    | ok tokens =>
    rw [h2] at h; simp only [pyBindOk] at h
    cases h3 : tokens.getKey "mac_dms" with
    | error e => rw [h3] at h; simp at h
    | ok mac_dms =>
    rw [h3] at h; simp only [pyBindOk] at h
    cases h4 : mac_dms.getKey "adp_token" with
    | error e => rw [h4] at h; simp at h
    | ok adp_token =>
    rw [h4] at h; simp only [pyBindOk] at h
    cases h5 : mac_dms.getKey "device_private_key" with
    | error e => rw [h5] at h; simp at h
    | ok device_private_key =>
    rw [h5] at h; simp only [pyBindOk] at h
    cases h6 : tokens.getKey "store_authentication_cookie" with
    | error e => rw [h6] at h; simp at h
    | ok store_authentication_cookie =>
    rw [h6] at h; simp only [pyBindOk] at h
    cases h7 : tokens.getKey "bearer" with
    | error e => rw [h7] at h; simp at h
    | ok bearer =>
    rw [h7] at h; simp only [pyBindOk] at h
    cases h8 : bearer.getKey "access_token" with
    | error e => rw [h8] at h; simp at h
    | ok access_token =>
    rw [h8] at h; simp only [pyBindOk] at h
    cases h9 : bearer.getKey "refresh_token" with
    | error e => rw [h9] at h; simp at h
    | ok refresh_token =>
    rw [h9] at h; simp only [pyBindOk] at h
    cases h10 : bearer.getKey "expires_in" with
    | error e => rw [h10] at h; simp at h
    | ok expires_in_raw =>
    rw [h10] at h; simp only [pyBindOk] at h
    cases h11 : pyInt expires_in_raw with
    | error e => rw [h11] at h; simp at h
    | ok expires_s =>
    rw [h11] at h; simp only [pyBindOk] at h
    cases h12 : success_response.getKey "extensions" with
    | error e => rw [h12] at h; simp at h
    | ok extensions =>
    rw [h12] at h; simp only [pyBindOk] at h
    cases h13 : extensions.getKey "device_info" with
    | error e => rw [h13] at h; simp at h
    | ok device_info =>
    rw [h13] at h; simp only [pyBindOk] at h
    cases h14 : extensions.getKey "customer_info" with
    | error e => rw [h14] at h; simp at h
    | ok customer_info =>
    rw [h14] at h; simp only [pyBindOk] at h
    cases h15 : tokens.getKey "website_cookies" with
    | error e => rw [h15] at h; simp at h
    | ok wc_raw =>
    rw [h15] at h; simp only [pyBindOk] at h
    cases h16 : flattenWebsiteCookies wc_raw with
    | error e => rw [h16] at h; simp at h
    | ok website_cookies =>
    rw [h16] at h; simp only [pyBindOk, pyPureOk] at h
    injection h with hb
    subst hb
    refine ⟨expires_s, ?_, rfl⟩
    rw [parsedExpiresIn, h1]
    simp only [pyBindOk]
    rw [h2]
    simp only [pyBindOk]
    rw [h7]
    simp only [pyBindOk]
    rw [h10]
    simp only [pyBindOk]
    exact h11
  · rw [if_pos hs] at h
    simp at h

/-- C3, witnessed: on the concrete well-formed response with
`expires_in = "3600"` processed at `now = 1000`, the parsed duration is
3600 and the stored expiry is the absolute instant `1000 + 3600 = 4600`. -/
theorem register_expiry_absolute_witness :
    ∃ n, parsedExpiresIn exRespBody = .ok n ∧ exBundle.expires = 1000 + n :=
  register_expiry_absolute (Json.obj []) "com" ⟨200, exRespBody⟩ 1000
    exBundle rfl
